import Mathlib

/-!
Verification of the immunization-automation reporting pipeline.

The Python sources are shallowly embedded here:
  src/utils/school_year.py   -> school-year calculator
  src/database/connection.py -> retrying query executor
  src/email_service/sender.py-> CSV composer and mailer
  src/main.py                -> orchestrator

External effects (database attempts, SMTP steps, file checks, clock) are
supplied as explicit environment data; traces of observable actions are
returned alongside results.
-/

/-! ## School-year calculator (src/utils/school_year.py) -/

/-- A Python datetime, compared lexicographically on
(year, month, day, seconds within the day). -/
structure PyDateTime where
  year : Int
  month : Nat
  day : Nat
  secs : Nat
deriving DecidableEq, Repr

/-- Python datetime strict comparison: lexicographic on
(year, month, day, seconds). -/
def dtLt (a b : PyDateTime) : Bool :=
  decide (a.year < b.year ∨ (a.year = b.year ∧ (a.month < b.month ∨ (a.month = b.month ∧
    (a.day < b.day ∨ (a.day = b.day ∧ a.secs < b.secs))))))

/-- Python datetime non-strict comparison. -/
def dtLe (a b : PyDateTime) : Bool :=
  dtLt a b || decide (a = b)

/-- datetime(current_year, SCHOOL_YEAR_START_MONTH, SCHOOL_YEAR_START_DAY):
the epoch instant of the school year beginning in calendar year y. -/
def schoolYearStart (m d : Nat) (y : Int) : PyDateTime :=
  ⟨y, m, d, 0⟩

/-- get_current_school_year: today.year - 1 when today is strictly before the
epoch of today's calendar year, else today.year. -/
def get_current_school_year (m d : Nat) (today : PyDateTime) : Int :=
  if dtLt today (schoolYearStart m d today.year) then today.year - 1 else today.year

/-- validate_school_year: (current_year - 10) <= year <= (current_year + 5). -/
def validate_school_year (currentYear y : Int) : Bool :=
  decide (currentYear - 10 ≤ y) && decide (y ≤ currentYear + 5)

theorem dtLt_false_iff (a b : PyDateTime) : dtLt a b = false ↔ dtLe b a = true := by
  obtain ⟨a1, a2, a3, a4⟩ := a
  obtain ⟨b1, b2, b3, b4⟩ := b
  simp only [dtLt, dtLe, PyDateTime.mk.injEq, Bool.or_eq_true, decide_eq_true_eq,
    decide_eq_false_iff_not]
  omega

/-! ## Data source client (src/database/connection.py) -/

/-- Outcome of one attempt inside execute_query's loop: a successful result,
a SQLAlchemyError (database/driver error), or any other exception. -/
inductive Outcome (α : Type) where
  | success (r : α)
  | dbError (e : Nat)
  | otherError (e : Nat)
deriving DecidableEq, Repr

/-- The exception that propagates out of execute_query. -/
inductive ExecError where
  | db (e : Nat)
  | other (e : Nat)
deriving DecidableEq, Repr

/-- The body of execute_query's loop: attempt is the 0-based loop index, and
remaining = max_retries - attempt is the number of loop iterations left.
On a SQLAlchemyError with further iterations available (attempt <
max_retries - 1), time.sleep(retry_delay) is recorded and the loop continues;
on the last iteration the error is re-raised.  Any other exception is
re-raised at once.  An exhausted range (max_retries = 0) falls through,
returning none. -/
def execGo {α : Type} (sched : Nat → Outcome α) (retryDelay : Nat) :
    Nat → Nat → List Nat → Option (Except ExecError α) × List Nat
  | _, 0, sleeps => (none, sleeps)
  | attempt, 1, sleeps =>
    match sched attempt with
    | Outcome.success r => (some (Except.ok r), sleeps)
    | Outcome.otherError e => (some (Except.error (ExecError.other e)), sleeps)
    | Outcome.dbError e => (some (Except.error (ExecError.db e)), sleeps)
  | attempt, s + 2, sleeps =>
    match sched attempt with
    | Outcome.success r => (some (Except.ok r), sleeps)
    | Outcome.otherError e => (some (Except.error (ExecError.other e)), sleeps)
    | Outcome.dbError _ => execGo sched retryDelay (attempt + 1) (s + 1) (sleeps ++ [retryDelay])

/-- execute_query with the attempts' outcomes given by sched: runs the retry
loop from attempt 0 with max_retries iterations available, and returns the
propagated result together with the list of sleeps performed (each entry is
one time.sleep(retry_delay)). -/
def execute_query {α : Type} (sched : Nat → Outcome α) (maxRetries retryDelay : Nat) :
    Option (Except ExecError α) × List Nat :=
  execGo sched retryDelay 0 maxRetries []

/-- DatabaseManager.__init__ default max_retries. -/
def defaultMaxRetries : Nat := 3

/-- DatabaseManager.__init__ default retry_delay. -/
def defaultRetryDelay : Nat := 5

theorem execGo_skip {α : Type} (sched : Nat → Outcome α) (rd : Nat) :
    ∀ (j a rem : Nat) (sl : List Nat), j < rem →
      (∀ i, a ≤ i → i < a + j → ∃ e, sched i = Outcome.dbError e) →
      execGo sched rd a rem sl = execGo sched rd (a + j) (rem - j) (sl ++ List.replicate j rd) := by
  intro j
  induction j with
  | zero => intro a rem sl _ _; simp
  | succ j ih =>
    intro a rem sl hlt hdb
    obtain ⟨t, rfl⟩ : ∃ t, rem = t + 2 := ⟨rem - 2, by omega⟩
    obtain ⟨e, he⟩ := hdb a (le_refl a) (by omega)
    have step := ih (a + 1) (t + 1) (sl ++ [rd]) (by omega)
      (fun i h1 h2 => hdb i (by omega) (by omega))
    rw [execGo, he]
    rw [step]
    have harith : a + 1 + j = a + (j + 1) := by omega
    have hrem : t + 1 - j = t + 2 - (j + 1) := by omega
    rw [harith, hrem, List.append_assoc]
    simp [List.replicate_succ]

/-- C3: for every date now and configured epoch (month, day),
get_current_school_year returns now.year when now is on or after the epoch of
now's calendar year and now.year - 1 otherwise; the boundary is inclusive:
evaluated exactly at the epoch instant the result is the new school year. -/
theorem C3_current_school_year (m d : Nat) (now : PyDateTime) :
    (get_current_school_year m d now =
      if dtLe (schoolYearStart m d now.year) now then now.year else now.year - 1) ∧
    (∀ y : Int, get_current_school_year m d (schoolYearStart m d y) = y) := by
  constructor
  · unfold get_current_school_year
    by_cases h : dtLt now (schoolYearStart m d now.year) = true
    · have hle : dtLe (schoolYearStart m d now.year) now = false := by
        by_contra hc
        have hc' : dtLe (schoolYearStart m d now.year) now = true := by
          cases hx : dtLe (schoolYearStart m d now.year) now
          · exact absurd hx hc
          · rfl
        have := (dtLt_false_iff now (schoolYearStart m d now.year)).mpr hc'
        rw [h] at this
        exact Bool.true_eq_false.mp this
      rw [h, hle]
      simp
    · have h' : dtLt now (schoolYearStart m d now.year) = false := by
        cases hx : dtLt now (schoolYearStart m d now.year)
        · rfl
        · exact absurd hx h
      have hle := (dtLt_false_iff now (schoolYearStart m d now.year)).mp h'
      rw [h', hle]
      simp
  · intro y
    unfold get_current_school_year schoolYearStart
    simp [dtLt]

/-- C3 witness: with the September 1 epoch, August 31 2024 maps to school year
2023 and September 1 2024 (the epoch instant) maps to 2024. -/
theorem C3_witness :
    get_current_school_year 9 1 ⟨2024, 8, 31, 0⟩ = 2023 ∧
    get_current_school_year 9 1 ⟨2024, 9, 1, 0⟩ = 2024 := by
  constructor
  · rw [(C3_current_school_year 9 1 ⟨2024, 8, 31, 0⟩).1]
    decide
  · rw [(C3_current_school_year 9 1 ⟨2024, 9, 1, 0⟩).1]
    decide

/-- C8: validate_school_year is true iff the year lies in
[currentYear - 10, currentYear + 5]; both boundary values are valid and the
values just outside are invalid. -/
theorem C8_validate_school_year (c y : Int) :
    (validate_school_year c y = true ↔ (c - 10 ≤ y ∧ y ≤ c + 5)) ∧
    validate_school_year c (c - 10) = true ∧
    validate_school_year c (c + 5) = true ∧
    validate_school_year c (c - 11) = false ∧
    validate_school_year c (c + 6) = false := by
  unfold validate_school_year
  refine ⟨?_, ?_, ?_, ?_, ?_⟩ <;> simp <;> omega

/-- C8 witness: concrete boundary checks for calendar year 2026. -/
theorem C8_witness :
    validate_school_year 2026 (2026 - 10) = true ∧
    validate_school_year 2026 (2026 + 6) = false :=
  ⟨(C8_validate_school_year 2026 0).2.1, (C8_validate_school_year 2026 0).2.2.2.2⟩

/-- C1: execute_query makes up to maxRetries attempts, sleeping retryDelay
seconds between consecutive attempts.  With the first k - 1 attempts failing
with database/driver errors: if attempt k (1 <= k <= maxRetries) succeeds, its
result is returned after exactly k - 1 sleeps of retryDelay; if attempt k
fails with an error not classified as database/driver, that error propagates
at once with no further attempt and no further sleep; and if k = maxRetries
and attempt k also fails with a database/driver error, that last error
propagates to the caller. -/
theorem C1_execute_query_retry {α : Type} (sched : Nat → Outcome α)
    (maxRetries retryDelay k : Nat) (hk1 : 1 ≤ k) (hk2 : k ≤ maxRetries)
    (hprev : ∀ i, i < k - 1 → ∃ e, sched i = Outcome.dbError e) :
    (∀ r, sched (k - 1) = Outcome.success r →
      execute_query sched maxRetries retryDelay =
        (some (Except.ok r), List.replicate (k - 1) retryDelay)) ∧
    (∀ e, sched (k - 1) = Outcome.otherError e →
      execute_query sched maxRetries retryDelay =
        (some (Except.error (ExecError.other e)), List.replicate (k - 1) retryDelay)) ∧
    (∀ e, k = maxRetries → sched (k - 1) = Outcome.dbError e →
      execute_query sched maxRetries retryDelay =
        (some (Except.error (ExecError.db e)), List.replicate (k - 1) retryDelay)) := by
  have hskip := execGo_skip sched retryDelay (k - 1) 0 maxRetries [] (by omega)
    (fun i h0 hi => hprev i (by omega))
  simp only [Nat.zero_add, List.nil_append] at hskip
  unfold execute_query
  rw [hskip]
  refine ⟨?_, ?_, ?_⟩
  · intro r hr
    obtain ⟨t, ht⟩ : ∃ t, maxRetries - (k - 1) = t + 1 := ⟨maxRetries - (k - 1) - 1, by omega⟩
    rcases t with _ | t <;> rw [ht, execGo, hr]
  · intro e he
    obtain ⟨t, ht⟩ : ∃ t, maxRetries - (k - 1) = t + 1 := ⟨maxRetries - (k - 1) - 1, by omega⟩
    rcases t with _ | t <;> rw [ht, execGo, he]
  · intro e hk he
    have ht : maxRetries - (k - 1) = 1 := by omega
    rw [ht, execGo, he]

/-- Attempt schedule used by the C1 witness: two database errors, then
success. -/
def schedC1 (i : Nat) : Outcome Nat :=
  if i < 2 then Outcome.dbError i else Outcome.success 42

/-- C1 witness: with the default max_retries = 3 and retry_delay = 5 and a
schedule that fails twice with database errors before succeeding,
execute_query returns the third attempt's result after exactly two sleeps of
5 seconds. -/
theorem C1_witness :
    execute_query schedC1 defaultMaxRetries defaultRetryDelay =
      (some (Except.ok 42), List.replicate 2 5) :=
  (C1_execute_query_retry schedC1 3 5 3 (by omega) (by omega)
    (fun i hi => ⟨i, by unfold schedC1; rw [if_pos (show i < 2 by omega)]⟩)).1
    42 (by decide)

/-! ## CSV composition (src/email_service/sender.py, create_csv_attachment)

A cell value is a string of characters; a row is the ordered list of
(column name, cell value) pairs of the Python row dictionary. -/

/-- A CSV cell or column name: a string, as a list of characters. -/
abbrev CsvField := List Char

/-- One result row: ordered (column name, value) pairs. -/
abbrev Row := List (CsvField × CsvField)

/-- A field must be quoted when it contains the delimiter, the quote
character, or a line-break character (csv QUOTE_MINIMAL). -/
def needsQuote (f : CsvField) : Bool :=
  f.any (fun c => decide (c = ',' ∨ c = '"' ∨ c = '\n' ∨ c = '\r'))

/-- Inside a quoted field a quote character is doubled. -/
def escapeChar (c : Char) : List Char :=
  if c = '"' then ['"', '"'] else [c]

/-- A quoted field: opening quote, body with doubled quotes, closing quote. -/
def quoteCsvField (f : CsvField) : List Char :=
  '"' :: (f.flatMap escapeChar ++ ['"'])

/-- Serialize one field, quoting it only when needed. -/
def encodeCsvField (f : CsvField) : List Char :=
  if needsQuote f then quoteCsvField f else f

/-- Serialize one record: fields joined with commas. -/
def joinCsvFields : List CsvField → List Char
  | [] => []
  | [f] => encodeCsvField f
  | f :: g :: fs => encodeCsvField f ++ ',' :: joinCsvFields (g :: fs)

/-- Serialize a whole table: each record on its own newline-terminated
line. -/
def csvEncode (records : List (List CsvField)) : List Char :=
  records.flatMap (fun r => joinCsvFields r ++ ['\n'])

/-- Column names of a row, in key order. -/
def rowKeys (row : Row) : List CsvField :=
  row.map Prod.fst

/-- Cell values of a row, in key order. -/
def rowValues (row : Row) : List CsvField :=
  row.map Prod.snd

/-- create_csv_attachment: None for an empty result set; otherwise the CSV
text whose header row holds the first row's column names followed by one
line of cell values per row. -/
def create_csv_attachment (data : List Row) : Option (List Char) :=
  match data with
  | [] => none
  | first :: _ => some (csvEncode (rowKeys first :: data.map rowValues))

/-! ## CSV parsing (reference reader used to state the round-trip claim) -/

/-- Reader state: inside or outside a quoted field. -/
inductive PMode where
  | plain
  | quoted
deriving DecidableEq, Repr

/-- One-pass CSV reader.  Arguments: remaining input, mode, current field
(reversed), current record (reversed), finished records (reversed).  A comma
ends a field, a newline ends a record, a quote at the start of a field opens
a quoted field, a doubled quote inside a quoted field is a literal quote. -/
def csvParse : List Char → PMode → List Char → List CsvField → List (List CsvField) → List (List CsvField)
  | [], _, f, r, d =>
    if f = [] ∧ r = [] then d.reverse else ((f.reverse :: r).reverse :: d).reverse
  | c :: cs, PMode.plain, f, r, d =>
    if c = ',' then csvParse cs PMode.plain [] (f.reverse :: r) d
    else if c = '\n' then csvParse cs PMode.plain [] [] ((f.reverse :: r).reverse :: d)
    else if c = '"' ∧ f = [] then csvParse cs PMode.quoted [] r d
    else csvParse cs PMode.plain (c :: f) r d
  | c :: cs, PMode.quoted, f, r, d =>
    if c = '"' then
      match cs with
      | [] => if f = [] ∧ r = [] then d.reverse else ((f.reverse :: r).reverse :: d).reverse
      | c2 :: cs2 =>
        if c2 = '"' then csvParse cs2 PMode.quoted ('"' :: f) r d
        else csvParse (c2 :: cs2) PMode.plain f r d
    else csvParse cs PMode.quoted (c :: f) r d

/-- Parse a CSV text into its records. -/
def parseCSV (s : List Char) : List (List CsvField) :=
  csvParse s PMode.plain [] [] []

theorem csvParse_comma (cs : List Char) (f r d) :
    csvParse (',' :: cs) PMode.plain f r d = csvParse cs PMode.plain [] (f.reverse :: r) d := by
  simp [csvParse]

theorem csvParse_newline (cs : List Char) (f r d) :
    csvParse ('\n' :: cs) PMode.plain f r d
      = csvParse cs PMode.plain [] [] ((f.reverse :: r).reverse :: d) := by
  simp [csvParse]

theorem csvParse_open_quote (cs : List Char) (r d) :
    csvParse ('"' :: cs) PMode.plain [] r d = csvParse cs PMode.quoted [] r d := by
  simp [csvParse]

theorem csvParse_plain_char (c : Char) (cs f r d)
    (h1 : c ≠ ',') (h2 : c ≠ '\n') (h3 : c ≠ '"') :
    csvParse (c :: cs) PMode.plain f r d = csvParse cs PMode.plain (c :: f) r d := by
  simp [csvParse, h1, h2, h3]

theorem csvParse_quoted_char (c : Char) (cs f r d) (h : c ≠ '"') :
    csvParse (c :: cs) PMode.quoted f r d = csvParse cs PMode.quoted (c :: f) r d := by
  rw [csvParse.eq_def]
  simp [h]

theorem csvParse_quoted_escape (cs : List Char) (f r d) :
    csvParse ('"' :: '"' :: cs) PMode.quoted f r d
      = csvParse cs PMode.quoted ('"' :: f) r d := rfl

theorem csvParse_close_quote (c2 : Char) (cs2 : List Char) (f r d) (h : c2 ≠ '"') :
    csvParse ('"' :: c2 :: cs2) PMode.quoted f r d
      = csvParse (c2 :: cs2) PMode.plain f r d := by
  rw [csvParse.eq_def]
  simp [h]

theorem csvParse_unquoted (f : List Char)
    (hf : ∀ c ∈ f, ¬(c = ',' ∨ c = '"' ∨ c = '\n' ∨ c = '\r')) :
    ∀ (cs : List Char) (fa : List Char) (r d),
      csvParse (f ++ cs) PMode.plain fa r d
        = csvParse cs PMode.plain (f.reverse ++ fa) r d := by
  induction f with
  | nil => intro cs fa r d; simp
  | cons c f ih =>
    intro cs fa r d
    have hc := hf c (List.mem_cons_self c f)
    rw [List.cons_append, csvParse_plain_char c (f ++ cs) fa r d
      (fun h => hc (Or.inl h)) (fun h => hc (Or.inr (Or.inr (Or.inl h))))
      (fun h => hc (Or.inr (Or.inl h)))]
    rw [ih (fun x hx => hf x (List.mem_cons_of_mem c hx)) cs (c :: fa) r d]
    simp

theorem csvParse_quoted_body (f : List Char) :
    ∀ (cs : List Char) (fa : List Char) (r d), (∀ t, cs ≠ '"' :: t) →
      csvParse (f.flatMap escapeChar ++ ('"' :: cs)) PMode.quoted fa r d
        = csvParse cs PMode.plain (f.reverse ++ fa) r d := by
  induction f with
  | nil =>
    intro cs fa r d hcs
    cases cs with
    | nil =>
      simp only [List.flatMap_nil, List.nil_append, List.reverse_nil]
      rw [csvParse.eq_def]
      simp [csvParse]
    | cons c2 cs2 =>
      have hc2 : c2 ≠ '"' := fun h => hcs cs2 (by rw [h])
      simp only [List.flatMap_nil, List.nil_append, List.reverse_nil]
      rw [csvParse_close_quote c2 cs2 fa r d hc2]
  | cons c f ih =>
    intro cs fa r d hcs
    by_cases hc : c = '"'
    · subst hc
      have : escapeChar '"' = ['"', '"'] := rfl
      rw [List.flatMap_cons, this]
      simp only [List.cons_append, List.nil_append]
      rw [csvParse_quoted_escape]
      rw [ih cs ('"' :: fa) r d hcs]
      simp
    · have : escapeChar c = [c] := by unfold escapeChar; rw [if_neg hc]
      rw [List.flatMap_cons, this]
      simp only [List.cons_append, List.nil_append]
      rw [csvParse_quoted_char c _ fa r d hc]
      rw [ih cs (c :: fa) r d hcs]
      simp

theorem needsQuote_false_forall (f : CsvField) (h : needsQuote f = false) :
    ∀ c ∈ f, ¬(c = ',' ∨ c = '"' ∨ c = '\n' ∨ c = '\r') := by
  intro c hc
  have := List.any_eq_false.mp h c hc
  simpa using this

theorem csvParse_encode (f : CsvField) (cs : List Char) (r d)
    (hcs : cs = [] ∨ (∃ t, cs = ',' :: t) ∨ (∃ t, cs = '\n' :: t)) :
    csvParse (encodeCsvField f ++ cs) PMode.plain [] r d
      = csvParse cs PMode.plain f.reverse r d := by
  by_cases hq : needsQuote f = true
  · have hcs' : ∀ t, cs ≠ '"' :: t := by
      rcases hcs with h | ⟨t, h⟩ | ⟨t, h⟩ <;> subst h <;> intro u hu <;> simp at hu
    rw [encodeCsvField, if_pos hq]
    unfold quoteCsvField
    rw [show ('"' :: (f.flatMap escapeChar ++ ['"'])) ++ cs
        = '"' :: (f.flatMap escapeChar ++ ('"' :: cs)) by simp]
    rw [csvParse_open_quote]
    rw [csvParse_quoted_body f cs [] r d hcs']
    simp
  · have hq' : needsQuote f = false := by
      cases hx : needsQuote f
      · rfl
      · exact absurd hx hq
    rw [encodeCsvField, if_neg hq]
    rw [csvParse_unquoted f (needsQuote_false_forall f hq') cs [] r d]
    simp

theorem csvParse_record (fields : List CsvField) :
    ∀ (r : List CsvField) (d : List (List CsvField)) (cs : List Char), fields ≠ [] →
      csvParse (joinCsvFields fields ++ '\n' :: cs) PMode.plain [] r d
        = csvParse cs PMode.plain [] [] ((r.reverse ++ fields) :: d) := by
  induction fields with
  | nil => intro r d cs h; exact absurd rfl h
  | cons f rest ih =>
    intro r d cs _
    cases rest with
    | nil =>
      rw [show joinCsvFields [f] = encodeCsvField f from rfl]
      rw [csvParse_encode f ('\n' :: cs) r d (Or.inr (Or.inr ⟨cs, rfl⟩))]
      rw [csvParse_newline]
      simp
    | cons g gs =>
      rw [show joinCsvFields (f :: g :: gs) = encodeCsvField f ++ ',' :: joinCsvFields (g :: gs)
          from rfl]
      simp only [List.append_assoc, List.cons_append]
      rw [csvParse_encode f (',' :: (joinCsvFields (g :: gs) ++ '\n' :: cs)) r d
        (Or.inr (Or.inl ⟨_, rfl⟩))]
      rw [csvParse_comma]
      rw [ih (f.reverse.reverse :: r) d cs (by simp)]
      simp

theorem csvParse_table (records : List (List CsvField)) :
    ∀ (d : List (List CsvField)), (∀ r ∈ records, r ≠ []) →
      csvParse (csvEncode records) PMode.plain [] [] d = d.reverse ++ records := by
  induction records with
  | nil => intro d _; simp [csvEncode, csvParse]
  | cons r rs ih =>
    intro d hne
    rw [show csvEncode (r :: rs) = (joinCsvFields r ++ ['\n']) ++ csvEncode rs from rfl]
    rw [show (joinCsvFields r ++ ['\n']) ++ csvEncode rs
        = joinCsvFields r ++ '\n' :: csvEncode rs by simp]
    rw [csvParse_record r [] d (csvEncode rs) (hne r (List.mem_cons_self r rs))]
    simp only [List.reverse_nil, List.nil_append]
    rw [ih (r :: d) (fun x hx => hne x (List.mem_cons_of_mem r hx))]
    simp

theorem csv_roundtrip (records : List (List CsvField)) (h : ∀ r ∈ records, r ≠ []) :
    parseCSV (csvEncode records) = records := by
  unfold parseCSV
  rw [csvParse_table records [] h]
  rfl

/-- C6 counterexample: for the non-empty result set consisting of one row
with zero columns (vacuously uniform columns), parsing the produced CSV does
not reproduce the original column names and cells — the two blank lines read
back as two records of one empty field each, not as zero-field records. -/
theorem C6_counterexample :
    ¬ ((create_csv_attachment [([] : Row)]).map parseCSV
        = some (rowKeys ([] : Row) :: [([] : Row)].map rowValues)) := by
  decide

/-- C6 (amended): for every non-empty result set with at least one column and
uniform columns across rows, create_csv_attachment succeeds and parsing its
CSV back yields the same column names in the same order (taken from the first
row's key order) and the same cell values as strings as the original result
set. -/
theorem C6_csv_roundtrip (rows : List Row) (first : Row) (rest : List Row)
    (hrows : rows = first :: rest)
    (huni : ∀ row ∈ rows, rowKeys row = rowKeys first)
    (hkeys : rowKeys first ≠ []) :
    create_csv_attachment rows = some (csvEncode (rowKeys first :: rows.map rowValues)) ∧
    parseCSV (csvEncode (rowKeys first :: rows.map rowValues))
      = rowKeys first :: rows.map rowValues := by
  subst hrows
  constructor
  · rfl
  · apply csv_roundtrip
    intro r hr
    rcases List.mem_cons.mp hr with h | h
    · subst h; exact hkeys
    · obtain ⟨row, hrow, rfl⟩ := List.mem_map.mp h
      have hk := huni row hrow
      intro hnil
      apply hkeys
      rw [← hk]
      unfold rowValues at hnil
      unfold rowKeys
      cases row with
      | nil => rfl
      | cons p ps => simp at hnil

def firstC6 : Row :=
  [(['i', 'd'], ['1']), (['n', 'a', 'm', 'e'], ['a', ',', 'b'])]

def restC6 : List Row :=
  [[(['i', 'd'], ['2']), (['n', 'a', 'm', 'e'], ['s', '"', 'h', 'i', '"'])]]

def rowsC6 : List Row :=
  firstC6 :: restC6

theorem C6_witness :
    parseCSV (csvEncode (rowKeys firstC6 :: rowsC6.map rowValues))
      = rowKeys firstC6 :: rowsC6.map rowValues :=
  (C6_csv_roundtrip rowsC6 firstC6 restC6 rfl (by decide) (by decide)).2

/-- C7: create_csv_attachment applied to an empty rows list returns none (no
attachment), not an empty-but-present CSV, and for every non-empty rows list
it returns a present CSV byte sequence. -/
theorem C7_csv_attachment_option (data : List Row) :
    create_csv_attachment ([] : List Row) = none ∧
    (data ≠ [] → ∃ s, create_csv_attachment data = some s) := by
  refine ⟨rfl, ?_⟩
  intro h
  cases data with
  | nil => exact absurd rfl h
  | cons a l => exact ⟨_, rfl⟩

theorem C7_witness :
    create_csv_attachment ([] : List Row) = none ∧
    ∃ s, create_csv_attachment [[(['a'], ['1'])]] = some s :=
  ⟨(C7_csv_attachment_option []).1,
   (C7_csv_attachment_option [[(['a'], ['1'])]]).2 (by decide)⟩

/-! ## Mailer (src/email_service/sender.py) -/

/-- An exception raised inside send_email's body: an smtplib.SMTPException
or any other exception. -/
inductive MailError where
  | smtp (e : Nat)
  | other (e : Nat)
deriving DecidableEq, Repr

/-- The mail configuration together with the outcomes of the external SMTP
steps: each step either succeeds (none) or raises (some error). -/
structure MailEnv where
  useTls : Bool
  useAuth : Bool
  composeErr : Option MailError
  connectErr : Option MailError
  starttlsErr : Option MailError
  loginErr : Option MailError
  sendmailErr : Option MailError
  fromEmail : CsvField
  recipients : List CsvField
deriving DecidableEq, Repr

/-- The composed MIME message, abstracted to the fields the claims speak of:
addresses, the school year in the subject/body, the record count in the body,
and the optional CSV attachment. -/
structure Message where
  fromAddr : CsvField
  toAddrs : List CsvField
  subjectYear : Int
  recordCount : Nat
  attachment : Option (List Char)
deriving DecidableEq, Repr

/-- create_email_message: the attachment is added only when the result set is
non-empty and create_csv_attachment produced one. -/
def create_email_message (cfg : MailEnv) (data : List Row) (sy : Int) : Message :=
  { fromAddr := cfg.fromEmail
    toAddrs := cfg.recipients
    subjectYear := sy
    recordCount := data.length
    attachment := if data = [] then none else create_csv_attachment data }

/-- The body of send_email before its exception handlers: compose the
message, connect, conditionally starttls (use_tls), conditionally login
(use_auth), then sendmail.  The first raising step aborts the body with its
error. -/
def sendEmailBody (env : MailEnv) (data : List Row) (sy : Int) : Except MailError Message :=
  match env.composeErr with
  | some e => Except.error e
  | none =>
    match env.connectErr with
    | some e => Except.error e
    | none =>
      match (if env.useTls then env.starttlsErr else none) with
      | some e => Except.error e
      | none =>
        match (if env.useAuth then env.loginErr else none) with
        | some e => Except.error e
        | none =>
          match env.sendmailErr with
          | some e => Except.error e
          | none => Except.ok (create_email_message env data sy)

/-- send_email: the body wrapped in the except handlers — every raised
exception (SMTP or otherwise) is converted to the return value false; true is
returned only when the body ran to completion. -/
def send_email (env : MailEnv) (data : List Row) (sy : Int) : Bool :=
  match sendEmailBody env data sy with
  | Except.ok _ => true
  | Except.error _ => false

/-- C5: for every input rows list and school year, send_email returns a
boolean and never raises: every exception arising during composition,
connection, TLS upgrade, authentication, or transmission is caught and
converted to false, and it returns true exactly when every step that runs
succeeds, i.e. when transmission completed. -/
theorem C5_send_email_total (env : MailEnv) (data : List Row) (sy : Int) :
    (send_email env data sy = true ↔
      sendEmailBody env data sy = Except.ok (create_email_message env data sy)) ∧
    (send_email env data sy = false ↔ ∃ e, sendEmailBody env data sy = Except.error e) ∧
    (send_email env data sy = true ↔
      (env.composeErr = none ∧ env.connectErr = none ∧
       (env.useTls = true → env.starttlsErr = none) ∧
       (env.useAuth = true → env.loginErr = none) ∧
       env.sendmailErr = none)) := by
  obtain ⟨tls, auth, ce, cne, se, le, sme, fe, rcp⟩ := env
  unfold send_email sendEmailBody
  cases ce <;> cases cne <;> cases tls <;> cases auth <;> cases se <;> cases le <;> cases sme <;>
    simp [create_email_message]

/-- All-success mail environment used by concrete runs. -/
def mail0 : MailEnv :=
  { useTls := true, useAuth := true, composeErr := none, connectErr := none,
    starttlsErr := none, loginErr := none, sendmailErr := none,
    fromEmail := ['f'], recipients := [['r']] }

/-- C5 witness: in the all-success environment send_email returns true. -/
theorem C5_witness : send_email mail0 [] 2024 = true :=
  (C5_send_email_total mail0 [] 2024).2.2.mpr
    ⟨rfl, rfl, fun _ => rfl, fun _ => rfl, rfl⟩

/-! ## Orchestrator (src/main.py) -/

/-- Observable actions of a run, in order. -/
inductive Event where
  | dbConstructed
  | mailerConstructed
  | dbProbed
  | emailProbed
  | dbClosed
  | schoolYearInvalid
  | queryFileChecked
  | queryExecuted
  | warnNoData
  | sendInvoked (data : List Row)
deriving DecidableEq, Repr

/-- Parsed command-line arguments. -/
structure Args where
  school_year : Option Int
  test_email : Bool
  test_db : Bool
  dry_run : Bool
deriving DecidableEq, Repr

deriving instance DecidableEq for Except

/-- The run's external world: the clock, the configured epoch, and the
outcomes of the external probes, the query-file check, query execution and
the SMTP steps. -/
structure Env where
  epochMonth : Nat
  epochDay : Nat
  now : PyDateTime
  dbProbe : Bool
  emailProbe : Bool
  queryFileValid : Bool
  queryOutcome : Except ExecError (List Row)
  mail : MailEnv
deriving DecidableEq, Repr

/-- Python truthiness of args.school_year: None and 0 are falsy. -/
def pyTruthy : Option Int → Bool
  | none => false
  | some n => decide (n ≠ 0)

/-- The school year used by the run: the override when given, else the one
computed from the clock. -/
def resolveSchoolYear (env : Env) : Option Int → Int
  | none => get_current_school_year env.epochMonth env.epochDay env.now
  | some y => y

/-- The body of run_immunization_report after the clients are constructed:
validate the school year, validate the query file, probe the database,
execute the query (an exception is caught by the handler and turns into
False), warn on an empty result set, then either skip sending (dry run) or
send the email. -/
def reportBody (env : Env) (sy : Int) (dryRun : Bool) : Bool × List Event :=
  if validate_school_year env.now.year sy = false then
    (false, [Event.schoolYearInvalid])
  else if env.queryFileValid = false then
    (false, [Event.queryFileChecked])
  else if env.dbProbe = false then
    (false, [Event.queryFileChecked, Event.dbProbed])
  else
    match env.queryOutcome with
    | Except.error _ =>
      (false, [Event.queryFileChecked, Event.dbProbed, Event.queryExecuted])
    | Except.ok data =>
      if dryRun then
        (true, [Event.queryFileChecked, Event.dbProbed, Event.queryExecuted]
          ++ (if data = [] then [Event.warnNoData] else []))
      else
        (send_email env.mail data sy,
         [Event.queryFileChecked, Event.dbProbed, Event.queryExecuted]
           ++ (if data = [] then [Event.warnNoData] else []) ++ [Event.sendInvoked data])

/-- run_immunization_report: constructs the clients, runs the body above, and
closes the database client on every path (the finally block). -/
def run_immunization_report (env : Env) (schoolYearArg : Option Int) (dryRun : Bool) :
    Bool × List Event :=
  ((reportBody env (resolveSchoolYear env schoolYearArg) dryRun).1,
   Event.dbConstructed :: Event.mailerConstructed ::
     (reportBody env (resolveSchoolYear env schoolYearArg) dryRun).2 ++ [Event.dbClosed])

/-- main: validates a truthy school-year override, handles the test modes
(running the selected health checks and combining their outcomes), and
otherwise runs the report, mapping success to exit code 0 and failure to 1. -/
def mainEntry (env : Env) (args : Args) : Nat × List Event :=
  if pyTruthy args.school_year = true ∧
      validate_school_year env.now.year (args.school_year.getD 0) = false then
    (1, [])
  else if args.test_db = true ∨ args.test_email = true then
    (if ((!args.test_db || env.dbProbe) && (!args.test_email || env.emailProbe)) = true
      then 0 else 1,
     (if args.test_db then [Event.dbConstructed, Event.dbProbed, Event.dbClosed] else [])
       ++ (if args.test_email then [Event.mailerConstructed, Event.emailProbed] else []))
  else
    (if (run_immunization_report env args.school_year args.dry_run).1 then 0 else 1,
     (run_immunization_report env args.school_year args.dry_run).2)

/-- The school year computed from the clock always passes validation against
the same clock's calendar year. -/
theorem computed_school_year_valid (m d : Nat) (now : PyDateTime) :
    validate_school_year now.year (get_current_school_year m d now) = true := by
  unfold get_current_school_year validate_school_year
  split
  all_goals simp
  all_goals omega

/-- Baseline all-healthy environment for concrete runs. -/
def env0 : Env :=
  { epochMonth := 9, epochDay := 1, now := ⟨2026, 10, 12, 0⟩,
    dbProbe := true, emailProbe := true, queryFileValid := true,
    queryOutcome := Except.ok [], mail := mail0 }

/-- C2 counterexample: invoked with test-db together with an out-of-range
school-year override while the database probe would pass, the process exits 1
and no health check is run — the claim's promised exit 0 after running the
selected checks does not happen. -/
theorem C2_counterexample :
    (mainEntry env0 ⟨some 1800, false, true, false⟩).1 = 1 ∧
    Event.dbProbed ∉ (mainEntry env0 ⟨some 1800, false, true, false⟩).2 := by
  decide

/-- C2 (amended): whenever test-db or test-email is requested and any
school-year override passes Python truthiness-guarded validation (absent,
zero, or in range), main runs exactly the selected health checks and exits 0
iff every selected check passes; in particular with test-db only the mailer
is never constructed and the email send is never invoked. -/
theorem C2_test_modes (env : Env) (args : Args)
    (hover : pyTruthy args.school_year = true →
      validate_school_year env.now.year (args.school_year.getD 0) = true)
    (htest : args.test_db = true ∨ args.test_email = true) :
    mainEntry env args =
      (if ((!args.test_db || env.dbProbe) && (!args.test_email || env.emailProbe)) = true
        then 0 else 1,
       (if args.test_db then [Event.dbConstructed, Event.dbProbed, Event.dbClosed] else [])
         ++ (if args.test_email then [Event.mailerConstructed, Event.emailProbed] else [])) ∧
    (args.test_email = false →
      Event.mailerConstructed ∉ (mainEntry env args).2 ∧
      ∀ dta, Event.sendInvoked dta ∉ (mainEntry env args).2) := by
  have hnot : ¬(pyTruthy args.school_year = true ∧
      validate_school_year env.now.year (args.school_year.getD 0) = false) := by
    rintro ⟨h1, h2⟩
    rw [hover h1] at h2
    exact Bool.true_eq_false.mp h2
  have hmain : mainEntry env args =
      (if ((!args.test_db || env.dbProbe) && (!args.test_email || env.emailProbe)) = true
        then 0 else 1,
       (if args.test_db then [Event.dbConstructed, Event.dbProbed, Event.dbClosed] else [])
         ++ (if args.test_email then [Event.mailerConstructed, Event.emailProbed] else [])) := by
    unfold mainEntry
    rw [if_neg hnot, if_pos htest]
  refine ⟨hmain, ?_⟩
  intro hte
  rw [hmain, hte]
  cases htd : args.test_db <;> simp

/-- C2 witness: test-db only with a failing database probe exits 1 and never
constructs the mailer. -/
theorem C2_witness :
    (mainEntry { env0 with dbProbe := false } ⟨none, false, true, false⟩).1 = 1 ∧
    Event.mailerConstructed ∉
      (mainEntry { env0 with dbProbe := false } ⟨none, false, true, false⟩).2 := by
  have h := C2_test_modes { env0 with dbProbe := false } ⟨none, false, true, false⟩
    (fun hc => by exact absurd hc (by decide)) (Or.inl rfl)
  constructor
  · rw [h.1]
    decide
  · exact (h.2 rfl).1

theorem schoolYearInvalid_notin_body (env : Env) (sy : Int) (dry : Bool)
    (h : validate_school_year env.now.year sy = true) :
    Event.schoolYearInvalid ∉ (reportBody env sy dry).2 := by
  unfold reportBody
  rw [if_neg (by simp [h])]
  split
  · simp
  · split
    · simp
    · split
      · simp
      · split
        · split <;> simp
        · split <;> simp

/-- C10: for every date now and configured epoch, the computed school year is
always now.year or now.year - 1, it always passes validation against the same
calendar year, and consequently a run without a school-year override can
never fail at the school-year validation step. -/
theorem C10_school_year_invariant (m d : Nat) (now : PyDateTime) :
    (get_current_school_year m d now = now.year ∨
      get_current_school_year m d now = now.year - 1) ∧
    validate_school_year now.year (get_current_school_year m d now) = true ∧
    (∀ (env : Env) (dryRun : Bool),
      Event.schoolYearInvalid ∉ (run_immunization_report env none dryRun).2) := by
  refine ⟨?_, computed_school_year_valid m d now, ?_⟩
  · unfold get_current_school_year
    split
    · exact Or.inr rfl
    · exact Or.inl rfl
  · intro env dryRun
    have hval := computed_school_year_valid env.epochMonth env.epochDay env.now
    have hnib := schoolYearInvalid_notin_body env
      (resolveSchoolYear env none) dryRun (by unfold resolveSchoolYear; exact hval)
    unfold run_immunization_report
    simp only [List.mem_cons, List.mem_append]
    intro hmem
    rcases hmem with (h | h | h) | h
    · exact Event.noConfusion h
    · exact Event.noConfusion h
    · exact hnib h
    · simp at h

/-- C10 witness: a concrete run without an override never reports an invalid
school year. -/
theorem C10_witness :
    Event.schoolYearInvalid ∉ (run_immunization_report env0 none false).2 :=
  (C10_school_year_invariant 9 1 ⟨2026, 10, 12, 0⟩).2.2 env0 false

/-- C4: in the normal (non-test) run, an empty result set is not treated as
failure: the run proceeds to compose and send the email, a warning is logged,
the composed message carries no CSV attachment, and the process exits 0 when
the send succeeds. -/
theorem C4_empty_result (env : Env)
    (hq : env.queryFileValid = true) (hdb : env.dbProbe = true)
    (hdata : env.queryOutcome = Except.ok [])
    (hsend : send_email env.mail []
      (get_current_school_year env.epochMonth env.epochDay env.now) = true) :
    (mainEntry env ⟨none, false, false, false⟩).1 = 0 ∧
    Event.warnNoData ∈ (mainEntry env ⟨none, false, false, false⟩).2 ∧
    Event.sendInvoked [] ∈ (mainEntry env ⟨none, false, false, false⟩).2 ∧
    (create_email_message env.mail []
      (get_current_school_year env.epochMonth env.epochDay env.now)).attachment = none := by
  have hval := computed_school_year_valid env.epochMonth env.epochDay env.now
  refine ⟨?_, ?_, ?_, ?_⟩ <;>
    simp [mainEntry, pyTruthy, run_immunization_report, reportBody, resolveSchoolYear,
      hval, hq, hdb, hdata, hsend, create_email_message]

/-- C4 witness: the all-healthy environment with an empty result set exits 0
with a warning, an attachment-free message, and an attempted send. -/
theorem C4_witness :
    (mainEntry env0 ⟨none, false, false, false⟩).1 = 0 ∧
    Event.warnNoData ∈ (mainEntry env0 ⟨none, false, false, false⟩).2 :=
  ⟨(C4_empty_result env0 rfl rfl rfl (by decide)).1,
   (C4_empty_result env0 rfl rfl rfl (by decide)).2.1⟩

/-- C9: invoked with dry-run in an otherwise healthy environment, the query
is still executed, the mailer's send is never invoked, and the process exits
0, whatever the result set. -/
theorem C9_dry_run (env : Env) (rows : List Row)
    (hq : env.queryFileValid = true) (hdb : env.dbProbe = true)
    (hdata : env.queryOutcome = Except.ok rows) :
    (mainEntry env ⟨none, false, false, true⟩).1 = 0 ∧
    (∀ dta, Event.sendInvoked dta ∉ (mainEntry env ⟨none, false, false, true⟩).2) ∧
    Event.queryExecuted ∈ (mainEntry env ⟨none, false, false, true⟩).2 := by
  have hval := computed_school_year_valid env.epochMonth env.epochDay env.now
  cases rows with
  | nil =>
    refine ⟨?_, ?_, ?_⟩ <;>
      simp [mainEntry, pyTruthy, run_immunization_report, reportBody, resolveSchoolYear,
        hval, hq, hdb, hdata]
  | cons row rows =>
    refine ⟨?_, ?_, ?_⟩ <;>
      simp [mainEntry, pyTruthy, run_immunization_report, reportBody, resolveSchoolYear,
        hval, hq, hdb, hdata]

/-- Five-row result set for the C9 witness. -/
def rows5 : List Row :=
  [[(['n'], ['1'])], [(['n'], ['2'])], [(['n'], ['3'])], [(['n'], ['4'])], [(['n'], ['5'])]]

/-- C9 witness: a dry run over a five-row result set exits 0 and never
reaches the mailer. -/
theorem C9_witness :
    (mainEntry { env0 with queryOutcome := Except.ok rows5 } ⟨none, false, false, true⟩).1 = 0 ∧
    Event.queryExecuted ∈
      (mainEntry { env0 with queryOutcome := Except.ok rows5 } ⟨none, false, false, true⟩).2 :=
  ⟨(C9_dry_run { env0 with queryOutcome := Except.ok rows5 } rows5 rfl rfl rfl).1,
   (C9_dry_run { env0 with queryOutcome := Except.ok rows5 } rows5 rfl rfl rfl).2.2⟩
